import Mathlib

/-!
Verification development for the `cortland_cast` integration.

This file gives a shallow embedding of the state-synchronization and
command-translation layer of the integration
(`custom_components/cortland_cast/media_player.py` and
`custom_components/cortland_cast/airplay_device.py`) and proves properties
of the embedded operations.

Modelling conventions:
* Python floats in `[0, 1]` are modelled by `ℚ` (the values involved are
  decimal fractions; float representation error is abstracted away).
* Python's truthiness tests (`if x := d.get(k):`) are modelled by an
  `Option` value together with an explicit non-zero / non-empty / `true`
  test, which is exactly what truthiness means for the types involved.
* HTTP calls are modelled by an `HttpOutcome` parameter: the call either
  returned status 200 (`ok`), returned a non-success status (`badStatus`),
  or raised an exception (`exn`).  Handlers that re-raise are modelled as
  functions into `Except Unit _`.
* `round()` (Python 3, round-half-to-even) is modelled by `pyRound`.
-/

/-- Outcome of one HTTP request issued by a handler:
status 200, a non-success status, or a raised exception. -/
inductive HttpOutcome where
  | ok
  | badStatus
  | exn
deriving DecidableEq, Repr

/-- Requests a handler sends to the control server (the ones the claims
talk about): `GET /airplay/devices`, `POST /airplay/set_active`,
`POST /airplay/set_volume` (volume as integer percent). -/
inductive ServerReq where
  | getDevices
  | setActive (ids : List String)
  | setVolume (level : ℤ)
deriving DecidableEq, Repr

/-- Python 3 `round` to an integer: round half to even. -/
def pyRound (q : ℚ) : ℤ :=
  if q - ⌊q⌋ < 1/2 then ⌊q⌋
  else if 1/2 < q - ⌊q⌋ then ⌊q⌋ + 1
  else if ⌊q⌋ % 2 = 0 then ⌊q⌋ else ⌊q⌋ + 1

/-- `VOLUME_STEP = 0.05` from `airplay_device.py`. -/
def VOLUME_STEP : ℚ := 5/100

/-- `DEFAULT_VOLUME_ON_ENABLE = 0.20` from `airplay_device.py`. -/
def DEFAULT_VOLUME_ON_ENABLE : ℚ := 20/100

/-- The volume snapping of `AppleMusicAirPlayDevice.async_set_volume_level`:
`rounded = round(volume / VOLUME_STEP) * VOLUME_STEP` then
`rounded = max(0.0, min(1.0, rounded))`. -/
def snapVolume (volume : ℚ) : ℚ :=
  let rounded : ℚ := (pyRound (volume / VOLUME_STEP) : ℚ) * VOLUME_STEP
  max 0 (min 1 rounded)

/-- `level = int(round(rounded_volume * 100))` from
`async_set_volume_level`. -/
def pushedLevel (volume : ℚ) : ℤ :=
  pyRound (snapVolume volume * 100)

/-! ## Playback state mirror (`media_player.py`) -/

/-- `MediaPlayerState` values the controller assigns. -/
inductive PState where
  | playing
  | paused
  | idle
deriving DecidableEq, Repr

/-- `RepeatMode` values. -/
inductive RMode where
  | off
  | one
  | all
deriving DecidableEq, Repr

/-- `rep_map` / `repeat_map`: `"off"/"one"/"all"` with default `OFF`. -/
def repeatOfString (s : String) : RMode :=
  if s = "off" then .off else if s = "one" then .one
  else if s = "all" then .all else .off

/-- A `now_playing` JSON payload, with the fields
`_update_from_now_playing` reads.  Absent keys are `none`. -/
structure NowPlayingData where
  state : Option String := none
  is_playing : Option Bool := none
  title : Option String := none
  name : Option String := none
  artist : Option String := none
  album : Option String := none
  position : Option ℚ := none
  duration : Option ℚ := none
  volume : Option ℚ := none
  shuffle : Option Bool := none
  repeatStr : Option String := none
deriving DecidableEq, Repr

/-- `str.lower` over the character data (ASCII suffices here). -/
def lowerStr (s : String) : String :=
  ⟨s.data.map Char.toLower⟩

/-- `state_str = str(data.get('state', '')).lower()`. -/
def stateStrOf (d : NowPlayingData) : String :=
  lowerStr (d.state.getD "")

/-- `is_playing = data.get('is_playing', False)` (truthiness of the
resulting value). -/
def isPlayingOf (d : NowPlayingData) : Bool :=
  d.is_playing.getD false

/-- Truthiness of `data.get('title') or data.get('name')`. -/
def hasTrackMeta (d : NowPlayingData) : Bool :=
  d.title.getD "" ≠ "" || d.name.getD "" ≠ ""

/-- The playback-state derivation of
`CortlandCastController._update_from_now_playing` (lines 303-318):

```
if state_str == 'playing' or is_playing:   PLAYING
elif state_str == 'paused':                PAUSED
elif state_str == 'stopped' or 'idle':     IDLE
else: PLAYING if title or name else IDLE
``` -/
def derivePState (d : NowPlayingData) : PState :=
  if stateStrOf d = "playing" || isPlayingOf d then .playing
  else if stateStrOf d = "paused" then .paused
  else if stateStrOf d = "stopped" || stateStrOf d = "idle" then .idle
  else if hasTrackMeta d then .playing
  else .idle

/-- `data.get('title') or data.get('name')` as a value (first truthy). -/
def firstTruthy (a b : Option String) : Option String :=
  if a.getD "" ≠ "" then a else b

/-- Artwork URL template from `_update_from_now_playing`
(percent-encoding of the album name is abstracted away). -/
def artworkUrl (album : String) : String :=
  "/album_artwork?name=" ++ album

/-- Mirrored state of the main controller entity (the `_attr_*` /
`_state` / `_volume_level` fields the claims mention). -/
structure PlayerState where
  state : PState := .idle
  media_title : Option String := none
  media_artist : Option String := none
  media_album_name : Option String := none
  media_position : Option ℚ := none
  media_duration : Option ℚ := none
  volume_level : ℚ := 1/2
  shuffle : Bool := false
  repeatMode : RMode := .off
  entity_picture : Option String := none
deriving DecidableEq, Repr

/-- "Update playback state" section of `_update_from_now_playing`. -/
def updState (st : PlayerState) (data : NowPlayingData) : PlayerState :=
  { st with state := derivePState data }

/-- "Update track metadata" section (unconditional assignments). -/
def updMeta (st : PlayerState) (data : NowPlayingData) : PlayerState :=
  { st with
    media_title := firstTruthy data.title data.name
    media_artist := data.artist
    media_album_name := data.album }

/-- "Update position/duration only when explicitly requested" section:
`if position := data.get('position'):` and
`if duration := data.get('duration'):` (zero is falsy). -/
def updPosition (st : PlayerState) (data : NowPlayingData)
    (include_position : Bool) : PlayerState :=
  if include_position then
    let st :=
      match data.position with
      | some p => if p ≠ 0 then { st with media_position := some p } else st
      | none => st
    match data.duration with
    | some dur => if dur ≠ 0 then { st with media_duration := some dur } else st
    | none => st
  else st

/-- "Update volume" section: `if vol := data.get('volume'):` then clamp
`float(vol) / 100` into `[0, 1]`. -/
def updVolume (st : PlayerState) (data : NowPlayingData) : PlayerState :=
  match data.volume with
  | some v => if v ≠ 0 then { st with volume_level := max 0 (min 1 (v / 100)) } else st
  | none => st

/-- "Update artwork URL" section: derived from the (just assigned) album
name, cleared when there is none. -/
def updArtwork (st : PlayerState) : PlayerState :=
  match st.media_album_name with
  | some a =>
    if a ≠ "" then { st with entity_picture := some (artworkUrl a) }
    else { st with entity_picture := none }
  | none => { st with entity_picture := none }

/-- "Update shuffle/repeat from polled data": `if shuf := data.get('shuffle'):`. -/
def updShuffle (st : PlayerState) (data : NowPlayingData) : PlayerState :=
  match data.shuffle with
  | some s => if s then { st with shuffle := s } else st
  | none => st

/-- `if rep := data.get('repeat'):` (empty string is falsy). -/
def updRepeat (st : PlayerState) (data : NowPlayingData) : PlayerState :=
  match data.repeatStr with
  | some r => if r ≠ "" then { st with repeatMode := repeatOfString r } else st
  | none => st

/-- `CortlandCastController._update_from_now_playing` (lines 299-355):
the sections above in program order. -/
def update_from_now_playing (st : PlayerState) (data : NowPlayingData)
    (include_position : Bool := false) : PlayerState :=
  updRepeat
    (updShuffle
      (updArtwork
        (updVolume
          (updPosition (updMeta (updState st data) data) data include_position)
          data))
      data)
    data

/-- The `volume` branch of `_handle_ws_message` (lines 233-237):
`if vol := inner_data.get("volume"): self._volume_level = float(vol)/100`. -/
def handle_ws_volume (st : PlayerState) (volume : Option ℚ) : PlayerState :=
  match volume with
  | some v => if v ≠ 0 then { st with volume_level := v / 100 } else st
  | none => st

/-- The `shuffle` branch of `_handle_ws_message` (lines 238-243):
`if shuf := inner_data.get("enabled"): self._attr_shuffle = bool(shuf)`. -/
def handle_ws_shuffle (st : PlayerState) (enabled : Option Bool) : PlayerState :=
  match enabled with
  | some s => if s then { st with shuffle := s } else st
  | none => st

/-- The controller's connection-relevant state: the `_ws_connected` flag
plus the mirrored playback state. -/
structure Ctrl where
  ws_connected : Bool
  ps : PlayerState
deriving DecidableEq, Repr

/-- `CortlandCastController.should_poll` (lines 184-187):
`return not self._ws_connected`. -/
def should_poll (c : Ctrl) : Bool :=
  !c.ws_connected

/-- `CortlandCastController._poll_now_playing`: on a 200 response the
snapshot is merged (with `include_position = False`); on failure nothing
changes. -/
def poll_now_playing (c : Ctrl) (response : Option NowPlayingData) : Ctrl :=
  match response with
  | some d => { c with ps := update_from_now_playing c.ps d false }
  | none => c

/-- `CortlandCastController.async_update` (lines 294-297):
`if not self._ws_connected: await self._poll_now_playing()`.
The second component records whether a poll was issued. -/
def async_update (c : Ctrl) (response : Option NowPlayingData) : Ctrl × Bool :=
  if !c.ws_connected then (poll_now_playing c response, true)
  else (c, false)

/-! ## Satellite AirPlay device entities (`airplay_device.py`) -/

/-- Local state of one `AppleMusicAirPlayDevice` entity:
`_is_active` and `_attr_volume_level`. -/
structure SatState where
  active : Bool
  volume : ℚ
deriving DecidableEq, Repr

/-- `AppleMusicAirPlayDevice.async_set_volume_level` (lines 108-130):
snap the requested volume, post the integer percent, store the snapped
value only on status 200; exceptions are caught and swallowed.
Also returns the requests issued. -/
def async_set_volume_level (st : SatState) (volume : ℚ)
    (outcome : HttpOutcome) : SatState × List ServerReq :=
  let rounded := snapVolume volume
  let level := pyRound (rounded * 100)
  match outcome with
  | .ok => ({ st with volume := rounded }, [.setVolume level])
  | .badStatus => (st, [.setVolume level])
  | .exn => (st, [.setVolume level])

/-- `AppleMusicAirPlayDevice.async_join_players` (lines 304-328).
`controller` is the result of looking up the bound main-player entity
(`player_ref`) and projecting its `entity_id`; `controllerGroup` is the
main player's `_attr_group_members` (`none` models Python `None`).
On acceptance: `_is_active = True`, the satellite's entity id is appended
to the controller's group list, and the 20% default volume is set (its
own HTTP call, outcome `volOutcome`).  Every other request raises
`ValueError`, modelled as `Except.error`. -/
def satellite_join_players (controller : Option String)
    (controllerGroup : Option (List String)) (selfEntity : String)
    (st : SatState) (group_members : List String)
    (volOutcome : HttpOutcome) :
    Except String (SatState × List String × List ServerReq) :=
  match group_members with
  | [requesting_entity] =>
    match controller with
    | some controllerEntity =>
      if controllerEntity = requesting_entity then
        let st := { st with active := true }
        let newGroup := (controllerGroup.getD []) ++ [selfEntity]
        let (st, reqs) := async_set_volume_level st DEFAULT_VOLUME_ON_ENABLE volOutcome
        .ok (st, newGroup, reqs)
      else
        .error "Cannot join AirPlay device to entities other than its associated controller"
    | none =>
      .error "Cannot join AirPlay device to entities other than its associated controller"
  | _ =>
    .error "Cannot join AirPlay device to entities other than its associated controller"

/-- `true` iff the join result is a success (no `ValueError`). -/
def joinAccepted (r : Except String (SatState × List String × List ServerReq)) : Bool :=
  match r with
  | .ok _ => true
  | .error _ => false

/-- Requests issued by a join result. -/
def joinRequests (r : Except String (SatState × List String × List ServerReq)) :
    List ServerReq :=
  match r with
  | .ok (_, _, reqs) => reqs
  | .error _ => []

/-- A request that reads or writes the server's active-device list. -/
def touchesActiveList : ServerReq → Bool
  | .getDevices => true
  | .setActive _ => true
  | .setVolume _ => false

/-! ## Registry / group world (`media_player.py` + `airplay_device.py`) -/

/-- One entry of the output-device registry (`airplay_devices`):
the device entity with its server id, hub entity id (`""` while not yet
registered, the falsy case), `_is_active` flag and volume. -/
structure Device where
  deviceId : String
  entityId : String
  active : Bool
  volume : ℚ
deriving DecidableEq, Repr

/-- The world the grouping operations act on: the registry, the
server-side active-id list, and the main player's published
`_attr_group_members`. -/
structure World where
  devices : List Device
  serverActive : List String
  groupMembers : List String
deriving DecidableEq, Repr

/-- `AppleMusicAirPlayDevice._get_active_device_ids` (lines 208-221):
returns the server's active ids on success and `[]` on any failure
(that helper swallows its own errors). -/
def get_active_device_ids (w : World) (fetchOk : Bool) : List String :=
  if fetchOk then w.serverActive else []

/-- Flip the `_is_active` flag of the device with the given id. -/
def setDeviceActive (devs : List Device) (id : String) (b : Bool) : List Device :=
  devs.map (fun d => if d.deviceId = id then { d with active := b } else d)

/-- Apply a successful default-volume set to the given device entity. -/
def setDeviceVolume (devs : List Device) (id : String) (v : ℚ) : List Device :=
  devs.map (fun d => if d.deviceId = id then { d with volume := v } else d)

/-- `CortlandCastController._update_group_members` (lines 835-849):
republishes group members as the entity ids of the active devices that
have a (truthy) entity id. -/
def update_group_members (w : World) : World :=
  { w with groupMembers :=
      (w.devices.filter (fun d => d.active && d.entityId ≠ "")).map (·.entityId) }

/-- `AppleMusicAirPlayDevice.async_turn_on` (lines 132-172): fetch the
active ids, append this device if absent, post `set_active`; on 200 set
`_is_active = True`, set the 20% default volume (own call, outcome
`volOutcome`), then — only when the `player_ref` lookup finds the main
player (`if main_player:`, lines 165-167) — recompute group members.
`mainPlayerFound` is that lookup's result: the source reads
`hass.data[DOMAIN][entry_id]["player_ref"]`, a per-entry key nothing in
the repository populates (`media_player.py` line 44 stores the reference
flat under `hass.data[DOMAIN]`), so in the shipped layout the lookup
always yields `None` and the guard never fires.  Non-200 and exceptions
leave everything unchanged (caught and logged). -/
def async_turn_on (w : World) (selfId : String) (fetchOk : Bool)
    (outcome volOutcome : HttpOutcome) (mainPlayerFound : Bool) : World :=
  let ids := get_active_device_ids w fetchOk
  let ids := if selfId ∈ ids then ids else ids ++ [selfId]
  match outcome with
  | .ok =>
    let w := { w with serverActive := ids,
                      devices := setDeviceActive w.devices selfId true }
    let w :=
      match volOutcome with
      | .ok => { w with devices :=
          setDeviceVolume w.devices selfId (snapVolume DEFAULT_VOLUME_ON_ENABLE) }
      | .badStatus => w
      | .exn => w
    if mainPlayerFound then update_group_members w else w
  | .badStatus => w
  | .exn => w

/-- `AppleMusicAirPlayDevice.async_turn_off` (lines 174-206): fetch the
active ids, remove this device (first occurrence, Python `list.remove`),
post `set_active`; on 200 set `_is_active = False` and — only when the
`player_ref` lookup finds the main player (`if main_player:`, lines
199-201; see `async_turn_on` for why the shipped layout never satisfies
it) — recompute group members.  No volume side effect. -/
def async_turn_off (w : World) (selfId : String) (fetchOk : Bool)
    (outcome : HttpOutcome) (mainPlayerFound : Bool) : World :=
  let ids := (get_active_device_ids w fetchOk).erase selfId
  match outcome with
  | .ok =>
    let w := { w with serverActive := ids,
                      devices := setDeviceActive w.devices selfId false }
    if mainPlayerFound then update_group_members w else w
  | .badStatus => w
  | .exn => w

/-- `AppleMusicAirPlayDevice._async_unjoin_player` (lines 247-302): same
removal as `async_turn_off`, with the same `if main_player:` guard on
the group-members recompute (lines 285-287), but the `except` clause
ends in `raise`, so an exception from the `set_active` post propagates
(`Except.error`); a non-200 status is only logged. -/
def satellite_unjoin (w : World) (selfId : String) (fetchOk : Bool)
    (outcome : HttpOutcome) (mainPlayerFound : Bool) : Except Unit World :=
  let ids := (get_active_device_ids w fetchOk).erase selfId
  match outcome with
  | .ok =>
    let w := { w with serverActive := ids,
                      devices := setDeviceActive w.devices selfId false }
    .ok (if mainPlayerFound then update_group_members w else w)
  | .badStatus => .ok w
  | .exn => .error ()

/-- `CortlandCastController._async_unjoin_player` (lines 864-889): posts
`set_active []`; on 200 deactivates every device and clears group
members; non-200 only logs; an exception is re-raised (`raise`). -/
def main_unjoin (w : World) (outcome : HttpOutcome) : Except Unit World :=
  match outcome with
  | .ok =>
    .ok { w with serverActive := [],
                 devices := w.devices.map (fun d => { d with active := false }),
                 groupMembers := [] }
  | .badStatus => .ok w
  | .exn => .error ()

/-! ## Group membership coordinator (`CortlandCastController.async_join_players`) -/

/-- The `entity_to_device_map` of `async_join_players` (lines 796-799),
as a lookup: the map is built by inserting every device with a truthy
`entity_id`, later insertions overwriting earlier ones, so the lookup
returns the last matching device. -/
def entityToDevice (devs : List Device) (e : String) : Option String :=
  (((devs.filter (fun d => d.entityId ≠ "")).reverse).find?
    (fun d => d.entityId = e)).map (·.deviceId)

/-- The resolution loop of `async_join_players` (lines 803-807): resolved
device ids in request order, and the entity ids dropped with a warning. -/
def resolveIds (devs : List Device) (group_members : List String) :
    List String × List String :=
  group_members.foldl
    (fun acc e =>
      match entityToDevice devs e with
      | some did => (acc.1 ++ [did], acc.2)
      | none => (acc.1, acc.2 ++ [e]))
    ([], [])

/-- `CortlandCastController.async_join_players` (lines 787-833): resolve
the requested entity ids, always issue exactly one `set_active` call with
the resolved device ids; on 200 set every device's `_is_active` to its
membership in the resolved list and publish the originally requested
entity list as group members; non-200 and exceptions change nothing.
Returns (world, requests, warned entity ids). -/
def controller_join_players (w : World) (group_members : List String)
    (outcome : HttpOutcome) : World × List ServerReq × List String :=
  let (device_ids, warned) := resolveIds w.devices group_members
  let reqs : List ServerReq := [.setActive device_ids]
  match outcome with
  | .ok =>
    ({ w with
        serverActive := device_ids
        groupMembers := group_members
        devices := w.devices.map (fun d =>
          let should_be_active := device_ids.contains d.deviceId
          if d.active != should_be_active then { d with active := should_be_active }
          else d) },
     reqs, warned)
  | .badStatus => (w, reqs, warned)
  | .exn => (w, reqs, warned)

/-! ## Browse-tree synthesizer (`CortlandCastController.async_browse_media`,
lines 433-483: the albums/artists letter-bucket view) -/

/-- `item.strip()`: remove leading and trailing whitespace (structural
version so concrete instances evaluate). -/
def trimStr (s : String) : String :=
  ⟨((s.data.dropWhile Char.isWhitespace).reverse.dropWhile
      Char.isWhitespace).reverse⟩

/-- The trimmed, non-empty names the loop actually processes. -/
def trimmedNames (items : List String) : List String :=
  (items.map trimStr).filter (fun n => n ≠ "")

/-- `first_char = name[0].upper(); if not first_char.isalpha(): '#'`. -/
def bucketKey (name : String) : Char :=
  let c :=
    match name.data with
    | [] => ' '
    | ch :: _ => ch.toUpper
  if c.isAlpha then c else '#'

/-- Append a name to its bucket in an insertion-ordered association list
(Python dict: new keys are appended, existing buckets grow at the end). -/
def addToGroup (groups : List (Char × List String)) (c : Char) (n : String) :
    List (Char × List String) :=
  match groups with
  | [] => [(c, [n])]
  | (k, ns) :: rest =>
    if k = c then (k, ns ++ [n]) :: rest else (k, ns) :: addToGroup rest c n

/-- The `letter_groups` dict built by lines 447-456. -/
def letterGroups (items : List String) : List (Char × List String) :=
  items.foldl
    (fun gs item =>
      let name := trimStr item
      if name = "" then gs else addToGroup gs (bucketKey name) name)
    []

/-- Bucket lookup (`letter_groups[c]`, `[]` when absent). -/
def lookupGroup : List (Char × List String) → Char → List String
  | [], _ => []
  | (k, ns) :: rest, c => if k = c then ns else lookupGroup rest c

/-- The names whose bucket key is `c` (reference form of a bucket). -/
def bucketItems (items : List String) (c : Char) : List String :=
  (trimmedNames items).filter (fun n => bucketKey n = c)

/-- Lines 459-461: `letters = sorted([l for l in keys if l.isalpha()])`
then `append('#')` when the `#` bucket exists (`sorted` is modelled by
insertion sort, which agrees with it on the distinct key set). -/
def bucketLetters (items : List String) : List Char :=
  let ks := (letterGroups items).map (fun p => p.1)
  List.insertionSort (fun a b => a ≤ b) (ks.filter (fun c => c.isAlpha)) ++
    (if '#' ∈ ks then ['#'] else [])

/-- A synthesized browse node (the fields the claim talks about). -/
structure BNode where
  title : String
  contentId : String
  canPlay : Bool
  canExpand : Bool
deriving DecidableEq, Repr

/-- `f"{letter} ({count})"`. -/
def bucketTitle (c : Char) (count : Nat) : String :=
  String.singleton c ++ " (" ++ toString count ++ ")"

/-- Lines 463-473: one directory child per populated bucket, in
`bucketLetters` order, title carrying the bucket's item count. -/
def letterChildren (items : List String) (category : String) : List BNode :=
  (bucketLetters items).map (fun c =>
    { title := bucketTitle c (lookupGroup (letterGroups items) c).length
      contentId := category ++ ":" ++ String.singleton c
      canPlay := false
      canExpand := true })

/-- The order the claim asserts on emitted bucket letters: alphabetical
on letters, with the `#` bucket last. -/
def letterOrder (a b : Char) : Prop :=
  (a.isAlpha ∧ b.isAlpha ∧ a < b) ∨ (a.isAlpha ∧ b = '#')

/-! ## Stage lemmas for the snapshot merge -/

lemma updVolume_of_zero (st : PlayerState) (data : NowPlayingData)
    (h : data.volume = some 0) : updVolume st data = st := by
  simp [updVolume, h]

lemma updVolume_cases (st : PlayerState) (data : NowPlayingData) :
    ∃ v, updVolume st data = { st with volume_level := v } := by
  unfold updVolume
  cases data.volume with
  | none => exact ⟨st.volume_level, rfl⟩
  | some v =>
    by_cases hv : v = 0
    · exact ⟨st.volume_level, by simp [hv]⟩
    · exact ⟨max 0 (min 1 (v / 100)), by simp [hv]⟩

lemma updPosition_cases (st : PlayerState) (data : NowPlayingData) (b : Bool) :
    ∃ p q, updPosition st data b =
      { st with media_position := p, media_duration := q } := by
  unfold updPosition
  cases b with
  | false => exact ⟨st.media_position, st.media_duration, rfl⟩
  | true =>
    simp only [if_true]
    cases data.position with
    | none =>
      cases data.duration with
      | none => exact ⟨st.media_position, st.media_duration, rfl⟩
      | some dur =>
        by_cases hd : dur = 0
        · exact ⟨st.media_position, st.media_duration, by simp [hd]⟩
        · exact ⟨st.media_position, some dur, by simp [hd]⟩
    | some p =>
      cases data.duration with
      | none =>
        by_cases hp : p = 0
        · exact ⟨st.media_position, st.media_duration, by simp [hp]⟩
        · exact ⟨some p, st.media_duration, by simp [hp]⟩
      | some dur =>
        by_cases hp : p = 0 <;> by_cases hd : dur = 0
        · exact ⟨st.media_position, st.media_duration, by simp [hp, hd]⟩
        · exact ⟨st.media_position, some dur, by simp [hp, hd]⟩
        · exact ⟨some p, st.media_duration, by simp [hp, hd]⟩
        · exact ⟨some p, some dur, by simp [hp, hd]⟩

lemma updArtwork_cases (st : PlayerState) :
    ∃ p, updArtwork st = { st with entity_picture := p } := by
  unfold updArtwork
  cases st.media_album_name with
  | none => exact ⟨none, rfl⟩
  | some a =>
    by_cases ha : a = ""
    · exact ⟨none, by simp [ha]⟩
    · exact ⟨some (artworkUrl a), by simp [ha]⟩

lemma updShuffle_cases (st : PlayerState) (data : NowPlayingData) :
    ∃ b, updShuffle st data = { st with shuffle := b } := by
  unfold updShuffle
  cases data.shuffle with
  | none => exact ⟨st.shuffle, rfl⟩
  | some s => cases s with
    | false => exact ⟨st.shuffle, rfl⟩
    | true => exact ⟨true, by simp⟩

lemma updRepeat_cases (st : PlayerState) (data : NowPlayingData) :
    ∃ r, updRepeat st data = { st with repeatMode := r } := by
  unfold updRepeat
  cases data.repeatStr with
  | none => exact ⟨st.repeatMode, rfl⟩
  | some r =>
    by_cases hr : r = ""
    · exact ⟨st.repeatMode, by simp [hr]⟩
    · exact ⟨repeatOfString r, by simp [hr]⟩

lemma tail_stages_volume_level (st : PlayerState) (data : NowPlayingData) :
    (updRepeat (updShuffle (updArtwork st) data) data).volume_level =
      st.volume_level := by
  obtain ⟨p, hp⟩ := updArtwork_cases st
  obtain ⟨b, hb⟩ := updShuffle_cases { st with entity_picture := p } data
  obtain ⟨r, hr⟩ := updRepeat_cases
    { st with entity_picture := p, shuffle := b } data
  rw [hp, hb, hr]

lemma tail_stages_media_position (st : PlayerState) (data : NowPlayingData) :
    (updRepeat (updShuffle (updArtwork st) data) data).media_position =
      st.media_position := by
  obtain ⟨p, hp⟩ := updArtwork_cases st
  obtain ⟨b, hb⟩ := updShuffle_cases { st with entity_picture := p } data
  obtain ⟨r, hr⟩ := updRepeat_cases
    { st with entity_picture := p, shuffle := b } data
  rw [hp, hb, hr]

lemma tail_stages_media_duration (st : PlayerState) (data : NowPlayingData) :
    (updRepeat (updShuffle (updArtwork st) data) data).media_duration =
      st.media_duration := by
  obtain ⟨p, hp⟩ := updArtwork_cases st
  obtain ⟨b, hb⟩ := updShuffle_cases { st with entity_picture := p } data
  obtain ⟨r, hr⟩ := updRepeat_cases
    { st with entity_picture := p, shuffle := b } data
  rw [hp, hb, hr]

lemma updPosition_media_position_of_zero (st : PlayerState)
    (data : NowPlayingData) (h : data.position = some 0) :
    (updPosition st data true).media_position = st.media_position := by
  unfold updPosition
  simp only [if_true, h]
  cases data.duration with
  | none => simp
  | some dur => by_cases hd : dur = 0 <;> simp [hd]

lemma updPosition_media_duration_of_zero (st : PlayerState)
    (data : NowPlayingData) (h : data.duration = some 0) :
    (updPosition st data true).media_duration = st.media_duration := by
  unfold updPosition
  simp only [if_true, h]
  cases data.position with
  | none => simp
  | some p => by_cases hp : p = 0 <;> simp [hp]

/-- C10: updates guard numeric and boolean fields by truthiness, so a
zero or `false` value is treated as absent: a now-playing snapshot
reporting volume 0, position 0 or duration 0 leaves the corresponding
stored value unchanged, a `volume` push event carrying 0 leaves the
stored volume unchanged, and a `shuffle` push event with `enabled=false`
leaves the shuffle flag unchanged. -/
theorem truthiness_guards_keep_prior (st : PlayerState)
    (data : NowPlayingData) (b : Bool) :
    (data.volume = some 0 →
      (update_from_now_playing st data b).volume_level = st.volume_level) ∧
    (data.position = some 0 →
      (update_from_now_playing st data true).media_position = st.media_position) ∧
    (data.duration = some 0 →
      (update_from_now_playing st data true).media_duration = st.media_duration) ∧
    handle_ws_volume st (some 0) = st ∧
    handle_ws_shuffle st (some false) = st := by
  refine ⟨?_, ?_, ?_, ?_, ?_⟩
  · intro h
    unfold update_from_now_playing
    rw [updVolume_of_zero _ _ h, tail_stages_volume_level]
    obtain ⟨p, q, hpq⟩ :=
      updPosition_cases (updMeta (updState st data) data) data b
    rw [hpq]
    rfl
  · intro h
    unfold update_from_now_playing
    obtain ⟨v, hv⟩ := updVolume_cases
      (updPosition (updMeta (updState st data) data) data true) data
    rw [hv, tail_stages_media_position]
    exact (updPosition_media_position_of_zero
      (updMeta (updState st data) data) data h).trans rfl
  · intro h
    unfold update_from_now_playing
    obtain ⟨v, hv⟩ := updVolume_cases
      (updPosition (updMeta (updState st data) data) data true) data
    rw [hv, tail_stages_media_duration]
    exact (updPosition_media_duration_of_zero
      (updMeta (updState st data) data) data h).trans rfl
  · simp [handle_ws_volume]
  · simp [handle_ws_shuffle]

/-- Witness for the C10 theorem at a concrete snapshot. -/
theorem truthiness_guards_keep_prior_witness :
    (update_from_now_playing {}
        { volume := some 0, position := some 0, duration := some 0 } true).volume_level =
      ({} : PlayerState).volume_level ∧
    (update_from_now_playing {}
        { volume := some 0, position := some 0, duration := some 0 } true).media_position =
      ({} : PlayerState).media_position ∧
    (update_from_now_playing {}
        { volume := some 0, position := some 0, duration := some 0 } true).media_duration =
      ({} : PlayerState).media_duration ∧
    handle_ws_volume {} (some 0) = {} ∧
    handle_ws_shuffle {} (some false) = {} :=
  ⟨(truthiness_guards_keep_prior {}
      { volume := some 0, position := some 0, duration := some 0 } true).1 rfl,
   (truthiness_guards_keep_prior {}
      { volume := some 0, position := some 0, duration := some 0 } true).2.1 rfl,
   (truthiness_guards_keep_prior {}
      { volume := some 0, position := some 0, duration := some 0 } true).2.2.1 rfl,
   (truthiness_guards_keep_prior {}
      { volume := some 0, position := some 0, duration := some 0 } true).2.2.2.1,
   (truthiness_guards_keep_prior {}
      { volume := some 0, position := some 0, duration := some 0 } true).2.2.2.2⟩

/-- C2: while the push channel's connected flag is true, the should-poll
predicate is false and the periodic update entry point issues no poll and
leaves the mirrored state untouched. -/
theorem no_poll_while_ws_connected (c : Ctrl)
    (response : Option NowPlayingData) (h : c.ws_connected = true) :
    should_poll c = false ∧ async_update c response = (c, false) := by
  refine ⟨?_, ?_⟩ <;> simp [should_poll, async_update, h]

/-- Witness for the C2 theorem at a concrete connected controller. -/
theorem no_poll_while_ws_connected_witness :
    should_poll ⟨true, {}⟩ = false ∧
    async_update ⟨true, {}⟩ none = (⟨true, {}⟩, false) :=
  no_poll_while_ws_connected ⟨true, {}⟩ none rfl

/-- C1 counterexample: a snapshot with `state="paused"` and
`is_playing=true` derives Playing, not Paused, because the code tests
`state_str == 'playing' or is_playing` first. -/
theorem paused_with_is_playing_counterexample :
    derivePState { state := some "paused", is_playing := some true } =
      PState.playing ∧
    derivePState { state := some "paused", is_playing := some true } ≠
      PState.paused := by
  constructor <;> decide

/-- C1 (amended): the derived playback state gives the explicit
`state="playing"` value and a truthy `is_playing` equal priority: either
one forces Playing (so `is_playing=true` overrides even an explicit
`paused`/`stopped`/`idle`); only when `is_playing` is falsy do
`paused`→Paused and `stopped`/`idle`→Idle apply, and only when the state
field matches none of the four strings does track metadata decide
(Playing when present, else Idle). -/
theorem derive_state_priority (d : NowPlayingData) :
    (stateStrOf d = "playing" → derivePState d = PState.playing) ∧
    (isPlayingOf d = true → derivePState d = PState.playing) ∧
    (isPlayingOf d = false → stateStrOf d = "paused" →
      derivePState d = PState.paused) ∧
    (isPlayingOf d = false → stateStrOf d = "stopped" →
      derivePState d = PState.idle) ∧
    (isPlayingOf d = false → stateStrOf d = "idle" →
      derivePState d = PState.idle) ∧
    (isPlayingOf d = false → stateStrOf d ≠ "playing" →
      stateStrOf d ≠ "paused" → stateStrOf d ≠ "stopped" →
      stateStrOf d ≠ "idle" →
      derivePState d = if hasTrackMeta d then PState.playing else PState.idle) := by
  refine ⟨?_, ?_, ?_, ?_, ?_, ?_⟩
  · intro h; simp [derivePState, h]
  · intro h; simp [derivePState, h]
  · intro h1 h2; simp [derivePState, h1, h2]
  · intro h1 h2; simp [derivePState, h1, h2]
  · intro h1 h2; simp [derivePState, h1, h2]
  · intro h1 h2 h3 h4 h5; simp [derivePState, h1, h2, h3, h4, h5]

/-- Witness for the amended C1 theorem at concrete snapshots. -/
theorem derive_state_priority_witness :
    derivePState { state := some "Playing" } = PState.playing ∧
    derivePState { is_playing := some true } = PState.playing ∧
    derivePState { state := some "paused" } = PState.paused ∧
    derivePState { state := some "stopped" } = PState.idle ∧
    derivePState { state := some "idle" } = PState.idle ∧
    derivePState { state := some "x", title := some "Song" } =
      (if hasTrackMeta { state := some "x", title := some "Song" }
        then PState.playing else PState.idle) :=
  ⟨(derive_state_priority _).1 (by decide),
   (derive_state_priority _).2.1 (by decide),
   (derive_state_priority _).2.2.1 (by decide) (by decide),
   (derive_state_priority _).2.2.2.1 (by decide) (by decide),
   (derive_state_priority _).2.2.2.2.1 (by decide) (by decide),
   (derive_state_priority _).2.2.2.2.2 (by decide) (by decide) (by decide)
     (by decide) (by decide)⟩

/-- C3: a satellite join request is accepted exactly when it names one
entity and that entity is the bound controller entity; every other
request (zero entities, several entities, or a mismatching entity)
raises the policy-violation `ValueError`.  In particular a request for
`media_player.other` on a satellite bound to `media_player.cortland`
fails. -/
theorem satellite_join_policy (controller : Option String)
    (controllerGroup : Option (List String)) (selfEntity : String)
    (st : SatState) (group_members : List String)
    (volOutcome : HttpOutcome) :
    (joinAccepted (satellite_join_players controller controllerGroup
        selfEntity st group_members volOutcome) = true ↔
      ∃ c, controller = some c ∧ group_members = [c]) ∧
    joinAccepted (satellite_join_players (some "media_player.cortland")
        controllerGroup selfEntity st ["media_player.other"] volOutcome) = false := by
  constructor
  · constructor
    · intro h
      cases group_members with
      | nil => simp [satellite_join_players, joinAccepted] at h
      | cons e rest =>
        cases rest with
        | cons f rest2 => simp [satellite_join_players, joinAccepted] at h
        | nil =>
          cases controller with
          | none => simp [satellite_join_players, joinAccepted] at h
          | some c =>
            by_cases hc : c = e
            · exact ⟨c, rfl, by rw [hc]⟩
            · simp [satellite_join_players, joinAccepted, hc] at h
    · rintro ⟨c, rfl, rfl⟩
      cases hv : async_set_volume_level { st with active := true }
          DEFAULT_VOLUME_ON_ENABLE volOutcome with
      | mk st2 reqs => simp [satellite_join_players, joinAccepted, hv]
  · simp [satellite_join_players, joinAccepted]

/-! ## Volume rounding lemmas -/

lemma pyRound_intCast (n : ℤ) : pyRound (n : ℚ) = n := by
  unfold pyRound
  rw [Int.floor_intCast]
  norm_num

lemma pyRound_nearest (q : ℚ) (m : ℤ) :
    |(pyRound q : ℚ) - q| ≤ |(m : ℚ) - q| := by
  have h1 : (⌊q⌋ : ℚ) ≤ q := Int.floor_le q
  have h2 : q < ⌊q⌋ + 1 := Int.lt_floor_add_one q
  have hm : (m : ℚ) ≤ (⌊q⌋ : ℚ) ∨ ((⌊q⌋ : ℚ) + 1) ≤ (m : ℚ) := by
    rcases le_or_lt m ⌊q⌋ with h | h
    · left; exact_mod_cast h
    · right; exact_mod_cast Int.add_one_le_iff.mpr h
  unfold pyRound
  split_ifs with hlt hgt heven
  · rw [abs_of_nonpos (by linarith)]
    rcases hm with h | h
    · rw [abs_of_nonpos (by linarith)]; linarith
    · rw [abs_of_nonneg (by linarith)]; linarith
  · push_cast
    rw [abs_of_nonneg (by linarith)]
    rcases hm with h | h
    · rw [abs_of_nonpos (by linarith)]; linarith
    · rw [abs_of_nonneg (by linarith)]; linarith
  · have hle : q - ⌊q⌋ ≤ 1/2 := not_lt.mp hgt
    rw [abs_of_nonpos (by linarith)]
    rcases hm with h | h
    · rw [abs_of_nonpos (by linarith)]; linarith
    · rw [abs_of_nonneg (by linarith)]; linarith
  · have hge : 1/2 ≤ q - ⌊q⌋ := not_lt.mp hlt
    push_cast
    rw [abs_of_nonneg (by linarith)]
    rcases hm with h | h
    · rw [abs_of_nonpos (by linarith)]; linarith
    · rw [abs_of_nonneg (by linarith)]; linarith

lemma snapVolume_nonneg (v : ℚ) : 0 ≤ snapVolume v :=
  le_max_left 0 _

lemma snapVolume_le_one (v : ℚ) : snapVolume v ≤ 1 := by
  unfold snapVolume
  exact max_le (by norm_num) (min_le_left 1 _)

lemma snapVolume_mul_hundred (v : ℚ) :
    ∃ n : ℤ, snapVolume v * 100 = (n : ℚ) := by
  unfold snapVolume VOLUME_STEP
  set k := pyRound (v / (5/100)) with hk
  rcases max_cases (0 : ℚ) (min 1 ((k : ℚ) * (5/100))) with ⟨h1, h2⟩ | ⟨h1, h2⟩
  · rw [h1]; exact ⟨0, by norm_num⟩
  · rw [h1]
    rcases min_cases (1 : ℚ) ((k : ℚ) * (5/100)) with ⟨h3, h4⟩ | ⟨h3, h4⟩
    · rw [h3]; exact ⟨100, by norm_num⟩
    · rw [h3]; exact ⟨5 * k, by push_cast; ring⟩

lemma pushedLevel_cast (v : ℚ) :
    (pushedLevel v : ℚ) = snapVolume v * 100 := by
  obtain ⟨n, hn⟩ := snapVolume_mul_hundred v
  unfold pushedLevel
  rw [hn, pyRound_intCast]

lemma nearest_multiple_of_step (v : ℚ) (m : ℤ) :
    |(pyRound (v / VOLUME_STEP) : ℚ) * VOLUME_STEP - v| ≤
      |(m : ℚ) * VOLUME_STEP - v| := by
  have h := pyRound_nearest (v / VOLUME_STEP) m
  have hs : (0 : ℚ) < VOLUME_STEP := by norm_num [VOLUME_STEP]
  have key : ∀ x : ℚ, |x - v / VOLUME_STEP| * VOLUME_STEP =
      |x * VOLUME_STEP - v| := by
    intro x
    rw [show |x - v / VOLUME_STEP| * VOLUME_STEP =
        |x - v / VOLUME_STEP| * |VOLUME_STEP| from by rw [abs_of_pos hs],
      ← abs_mul]
    congr 1
    field_simp
  calc |(pyRound (v / VOLUME_STEP) : ℚ) * VOLUME_STEP - v|
      = |(pyRound (v / VOLUME_STEP) : ℚ) - v / VOLUME_STEP| * VOLUME_STEP :=
        (key _).symm
    _ ≤ |(m : ℚ) - v / VOLUME_STEP| * VOLUME_STEP :=
        mul_le_mul_of_nonneg_right h (le_of_lt hs)
    _ = |(m : ℚ) * VOLUME_STEP - v| := key _

lemma pyRound_eighty_three_fifths : pyRound (83/5 : ℚ) = 17 := by
  have h16 : ⌊(83/5 : ℚ)⌋ = 16 := by norm_num
  unfold pyRound
  rw [h16]
  norm_num

lemma snapVolume_point_eighty_three : snapVolume (83/100) = 85/100 := by
  unfold snapVolume VOLUME_STEP
  rw [show (83/100 : ℚ) / (5/100) = 83/5 from by norm_num,
    pyRound_eighty_three_fifths]
  show max 0 (min 1 (((17 : ℤ) : ℚ) * (5/100))) = 85/100
  rw [show (((17 : ℤ) : ℚ) * (5/100)) = 85/100 from by norm_num]
  rw [min_eq_right (by norm_num : (85/100 : ℚ) ≤ 1),
    max_eq_right (by norm_num : (0 : ℚ) ≤ 85/100)]

lemma pyRound_twenty_six : pyRound (26 : ℚ) = 26 := by
  rw [show (26 : ℚ) = ((26 : ℤ) : ℚ) from by norm_num, pyRound_intCast]

lemma snapVolume_one_point_three : snapVolume (13/10) = 1 := by
  unfold snapVolume VOLUME_STEP
  rw [show (13/10 : ℚ) / (5/100) = 26 from by norm_num, pyRound_twenty_six]
  show max 0 (min 1 (((26 : ℤ) : ℚ) * (5/100))) = 1
  rw [show (((26 : ℤ) : ℚ) * (5/100)) = 13/10 from by norm_num]
  rw [min_eq_left (by norm_num : (1 : ℚ) ≤ 13/10),
    max_eq_right (by norm_num : (0 : ℚ) ≤ 1)]

/-- C4: a volume-set request on an output device snaps the requested
level to the nearest 5% increment (nearest multiple of `VOLUME_STEP`),
clamps it to `[0, 1]`, pushes exactly the snapped value as an integer
percentage, and stores the snapped value only on HTTP success; on any
failure the stored volume is unchanged.  `0.83` stores `0.85`, `1.3`
stores `1.0`. -/
theorem satellite_volume_snap (st : SatState) (v : ℚ)
    (outcome : HttpOutcome) :
    (async_set_volume_level st v outcome).2 =
      [ServerReq.setVolume (pushedLevel v)] ∧
    (pushedLevel v : ℚ) = snapVolume v * 100 ∧
    (outcome = .ok →
      (async_set_volume_level st v outcome).1.volume = snapVolume v) ∧
    (outcome ≠ .ok → (async_set_volume_level st v outcome).1 = st) ∧
    (0 ≤ snapVolume v ∧ snapVolume v ≤ 1) ∧
    (∀ m : ℤ, |(pyRound (v / VOLUME_STEP) : ℚ) * VOLUME_STEP - v| ≤
      |(m : ℚ) * VOLUME_STEP - v|) ∧
    snapVolume (83/100) = 85/100 ∧ snapVolume (13/10) = 1 := by
  refine ⟨?_, pushedLevel_cast v, ?_, ?_, ⟨snapVolume_nonneg v, snapVolume_le_one v⟩,
    nearest_multiple_of_step v, snapVolume_point_eighty_three,
    snapVolume_one_point_three⟩
  · cases outcome <;> rfl
  · intro h; subst h; rfl
  · intro h; cases outcome with
    | ok => exact absurd rfl h
    | badStatus => rfl
    | exn => rfl

/-- Witness for the C4 theorem: 0.83 is stored as 0.85 on success, and a
failed request leaves the stored volume unchanged. -/
theorem satellite_volume_snap_witness :
    (async_set_volume_level ⟨false, 1/2⟩ (83/100) .ok).1.volume = 85/100 ∧
    (async_set_volume_level ⟨false, 1/2⟩ (13/10) .badStatus).1 = ⟨false, 1/2⟩ := by
  constructor
  · have h := satellite_volume_snap ⟨false, 1/2⟩ (83/100) .ok
    rw [h.2.2.1 rfl, h.2.2.2.2.2.2.1]
  · exact (satellite_volume_snap ⟨false, 1/2⟩ (13/10) .badStatus).2.2.2.1
      (by decide)

/-! ## Default-volume lemmas -/

lemma snapVolume_default : snapVolume DEFAULT_VOLUME_ON_ENABLE = 20/100 := by
  unfold snapVolume VOLUME_STEP DEFAULT_VOLUME_ON_ENABLE
  rw [show (20/100 : ℚ) / (5/100) = ((4 : ℤ) : ℚ) from by norm_num,
    pyRound_intCast]
  show max 0 (min 1 (((4 : ℤ) : ℚ) * (5/100))) = 20/100
  rw [show (((4 : ℤ) : ℚ) * (5/100)) = 20/100 from by norm_num]
  rw [min_eq_right (by norm_num : (20/100 : ℚ) ≤ 1),
    max_eq_right (by norm_num : (0 : ℚ) ≤ 20/100)]

lemma pushedLevel_default : pushedLevel DEFAULT_VOLUME_ON_ENABLE = 20 := by
  have h := pushedLevel_cast DEFAULT_VOLUME_ON_ENABLE
  rw [snapVolume_default] at h
  have h20 : (pushedLevel DEFAULT_VOLUME_ON_ENABLE : ℚ) = 20 := by
    rw [h]; norm_num
  exact_mod_cast h20

/-- C6 counterexample: an accepted satellite join does not fetch or push
the server's active-id list at all — the only request it issues is the
default-volume push (`set_volume 20`); it merely flips its local flag. -/
theorem accepted_join_issues_no_set_active :
    joinAccepted (satellite_join_players (some "media_player.cortland")
      (some []) "media_player.sat" ⟨false, 1/2⟩
      ["media_player.cortland"] .ok) = true ∧
    (joinRequests (satellite_join_players (some "media_player.cortland")
      (some []) "media_player.sat" ⟨false, 1/2⟩
      ["media_player.cortland"] .ok)).any touchesActiveList = false := by
  constructor
  · simp [satellite_join_players, joinAccepted, async_set_volume_level]
  · simp [satellite_join_players, joinRequests, async_set_volume_level,
      touchesActiveList]

/-- C6 (amended): an accepted join request (single requesting entity
equal to the bound controller) sets the satellite's local active flag to
true WITHOUT any server activation traffic — it neither fetches the
active-id list nor pushes one; its only request is the 20% default
volume push (stored volume becomes 0.20 on success, unchanged
otherwise) — and it appends its own entity id to the main player's
group-members list directly. -/
theorem accepted_join_behavior (c selfEntity : String)
    (controllerGroup : Option (List String)) (st : SatState)
    (volOutcome : HttpOutcome) :
    satellite_join_players (some c) controllerGroup selfEntity st [c]
        volOutcome =
      .ok ({ active := true,
             volume := if volOutcome = .ok
               then snapVolume DEFAULT_VOLUME_ON_ENABLE else st.volume },
           (controllerGroup.getD []) ++ [selfEntity],
           [ServerReq.setVolume (pushedLevel DEFAULT_VOLUME_ON_ENABLE)]) ∧
    snapVolume DEFAULT_VOLUME_ON_ENABLE = 20/100 ∧
    pushedLevel DEFAULT_VOLUME_ON_ENABLE = 20 := by
  refine ⟨?_, snapVolume_default, pushedLevel_default⟩
  cases volOutcome with
  | ok => simp [satellite_join_players, async_set_volume_level, pushedLevel]
  | badStatus => simp [satellite_join_players, async_set_volume_level, pushedLevel]
  | exn => simp [satellite_join_players, async_set_volume_level, pushedLevel]

/-! ## Coordinator join lemmas -/

lemma resolveIds_go (devs : List Device) :
    ∀ (group_members : List String) (acc : List String × List String),
      group_members.foldl
        (fun acc e =>
          match entityToDevice devs e with
          | some did => (acc.1 ++ [did], acc.2)
          | none => (acc.1, acc.2 ++ [e])) acc =
      (acc.1 ++ group_members.filterMap (entityToDevice devs),
       acc.2 ++ group_members.filter (fun e => (entityToDevice devs e).isNone)) := by
  intro group_members
  induction group_members with
  | nil => intro acc; simp
  | cons e rest ih =>
    intro acc
    simp only [List.foldl_cons]
    cases h : entityToDevice devs e with
    | some did =>
      rw [ih]
      simp [List.filterMap_cons, List.filter_cons, h]
    | none =>
      rw [ih]
      simp [List.filterMap_cons, List.filter_cons, h]

lemma resolveIds_spec (devs : List Device) (group_members : List String) :
    resolveIds devs group_members =
      (group_members.filterMap (entityToDevice devs),
       group_members.filter (fun e => (entityToDevice devs e).isNone)) := by
  unfold resolveIds
  rw [resolveIds_go]
  simp

/-- C5: the coordinator's join maps requested entity ids to device ids,
dropping unmapped ids into a warning list (never an error), issues
exactly one combined `set_active` call carrying the resolved device ids,
and on success sets every known device's active flag to its membership
in the resolved list (devices outside the list are deactivated) while
publishing exactly the originally requested entity list as group
members; on failure nothing changes. -/
theorem coordinator_join_players (w : World) (group_members : List String)
    (outcome : HttpOutcome) :
    (controller_join_players w group_members outcome).2.1 =
      [ServerReq.setActive (group_members.filterMap (entityToDevice w.devices))] ∧
    (controller_join_players w group_members outcome).2.2 =
      group_members.filter (fun e => (entityToDevice w.devices e).isNone) ∧
    (outcome = .ok →
      (controller_join_players w group_members outcome).1.groupMembers =
        group_members ∧
      ((controller_join_players w group_members outcome).1.devices.map
        (fun d => d.deviceId)) = w.devices.map (fun d => d.deviceId) ∧
      ∀ d ∈ (controller_join_players w group_members outcome).1.devices,
        d.active = ((group_members.filterMap (entityToDevice w.devices)).contains
          d.deviceId)) ∧
    (outcome ≠ .ok → (controller_join_players w group_members outcome).1 = w) := by
  refine ⟨?_, ?_, ?_, ?_⟩
  · cases outcome <;> simp [controller_join_players, resolveIds_spec]
  · cases outcome <;> simp [controller_join_players, resolveIds_spec]
  · intro h; subst h
    refine ⟨by simp [controller_join_players, resolveIds_spec], ?_, ?_⟩
    · simp only [controller_join_players, resolveIds_spec]
      rw [List.map_map]
      apply List.map_congr_left
      intro d _
      simp only [Function.comp_apply]
      split <;> rfl
    · intro d hd
      simp only [controller_join_players, resolveIds_spec] at hd
      rw [List.mem_map] at hd
      obtain ⟨d0, hmem, rfl⟩ := hd
      split
      · rfl
      · rename_i hcond
        have hf : (d0.active !=
            ((group_members.filterMap (entityToDevice w.devices)).contains
              d0.deviceId)) = false := by
          cases hx : (d0.active !=
              ((group_members.filterMap (entityToDevice w.devices)).contains
                d0.deviceId)) with
          | false => rfl
          | true => exact absurd hx hcond
        simpa using hf
  · intro h
    cases outcome with
    | ok => exact absurd rfl h
    | badStatus => simp [controller_join_players, resolveIds_spec]
    | exn => simp [controller_join_players, resolveIds_spec]

/-- Witness for the C5 theorem at a one-device registry with one
resolvable and one unknown requested entity id. -/
theorem coordinator_join_players_witness :
    (controller_join_players
        ⟨[⟨"dev1", "media_player.a", false, 1⟩], [], []⟩
        ["media_player.a", "media_player.ghost"] .ok).2.1 =
      [ServerReq.setActive ["dev1"]] ∧
    (controller_join_players
        ⟨[⟨"dev1", "media_player.a", false, 1⟩], [], []⟩
        ["media_player.a", "media_player.ghost"] .ok).2.2 =
      ["media_player.ghost"] ∧
    (controller_join_players
        ⟨[⟨"dev1", "media_player.a", false, 1⟩], [], []⟩
        ["media_player.a", "media_player.ghost"] .ok).1.groupMembers =
      ["media_player.a", "media_player.ghost"] ∧
    (controller_join_players
        ⟨[⟨"dev1", "media_player.a", false, 1⟩], [], []⟩
        ["media_player.a", "media_player.ghost"] .exn).1 =
      ⟨[⟨"dev1", "media_player.a", false, 1⟩], [], []⟩ := by
  have h := coordinator_join_players
    ⟨[⟨"dev1", "media_player.a", false, 1⟩], [], []⟩
    ["media_player.a", "media_player.ghost"] .ok
  have hx := coordinator_join_players
    ⟨[⟨"dev1", "media_player.a", false, 1⟩], [], []⟩
    ["media_player.a", "media_player.ghost"] .exn
  refine ⟨?_, ?_, (h.2.2.1 rfl).1, hx.2.2.2 (by decide)⟩
  · rw [h.1]; rfl
  · rw [h.2.1]; rfl

/-! ## Activation round-trip lemmas -/

lemma mem_setDeviceActive (devs : List Device) (id : String) (b : Bool)
    (d : Device) (hd : d ∈ setDeviceActive devs id b) :
    ∃ d0 ∈ devs, d.deviceId = d0.deviceId ∧ d.entityId = d0.entityId ∧
      d.active = (if d0.deviceId = id then b else d0.active) := by
  unfold setDeviceActive at hd
  rw [List.mem_map] at hd
  obtain ⟨d0, h0, rfl⟩ := hd
  refine ⟨d0, h0, ?_, ?_, ?_⟩ <;> by_cases h : d0.deviceId = id <;> simp [h]

lemma mem_setDeviceVolume (devs : List Device) (id : String) (v : ℚ)
    (d : Device) (hd : d ∈ setDeviceVolume devs id v) :
    ∃ d0 ∈ devs, d.deviceId = d0.deviceId ∧ d.entityId = d0.entityId ∧
      d.active = d0.active := by
  unfold setDeviceVolume at hd
  rw [List.mem_map] at hd
  obtain ⟨d0, h0, rfl⟩ := hd
  refine ⟨d0, h0, ?_, ?_, ?_⟩ <;> by_cases h : d0.deviceId = id <;> simp [h]

lemma turn_off_devices (w : World) (selfId : String) (f2 g2 : Bool) :
    (async_turn_off w selfId f2 .ok g2).devices =
      setDeviceActive w.devices selfId false := by
  cases g2 <;> rfl

lemma turn_off_groupMembers_found (w : World) (selfId : String) (f2 : Bool) :
    (async_turn_off w selfId f2 .ok true).groupMembers =
      ((setDeviceActive w.devices selfId false).filter
        (fun d => d.active && d.entityId ≠ "")).map (fun d => d.entityId) := rfl

lemma turn_off_groupMembers_not_found (w : World) (selfId : String)
    (f2 : Bool) :
    (async_turn_off w selfId f2 .ok false).groupMembers = w.groupMembers := rfl

lemma mem_turn_on_devices (w : World) (selfId : String) (f1 : Bool)
    (volOutcome : HttpOutcome) (g1 : Bool) (d1 : Device)
    (h : d1 ∈ (async_turn_on w selfId f1 .ok volOutcome g1).devices) :
    ∃ d0 ∈ w.devices, d1.deviceId = d0.deviceId ∧
      d1.entityId = d0.entityId ∧
      d1.active = (if d0.deviceId = selfId then true else d0.active) := by
  have hdev : (async_turn_on w selfId f1 .ok volOutcome g1).devices =
      match volOutcome with
      | .ok => setDeviceVolume (setDeviceActive w.devices selfId true) selfId
          (snapVolume DEFAULT_VOLUME_ON_ENABLE)
      | .badStatus => setDeviceActive w.devices selfId true
      | .exn => setDeviceActive w.devices selfId true := by
    cases volOutcome <;> cases g1 <;> rfl
  rw [hdev] at h
  cases volOutcome with
  | ok =>
    obtain ⟨d2, h2, hid2, hent2, hact2⟩ := mem_setDeviceVolume _ _ _ _ h
    obtain ⟨d0, h0, hid0, hent0, hact0⟩ := mem_setDeviceActive _ _ _ _ h2
    refine ⟨d0, h0, hid2.trans hid0, hent2.trans hent0, ?_⟩
    rw [hact2, hact0]
  | badStatus => exact mem_setDeviceActive _ _ _ _ h
  | exn => exact mem_setDeviceActive _ _ _ _ h

/-- C8 (code bug): a successful activate followed by a successful
deactivate always leaves the device's active flag false, and the entity
id is absent from the recomputed group-members list whenever the
deactivate's `player_ref` lookup finds the main player — the behaviour
the claim and the spec's group-membership invariant describe.  But that
lookup reads `hass.data[DOMAIN][entry_id]["player_ref"]`, which the
repository never populates (the reference is stored flat), so in the
shipped layout the guard fails and the published list is left
untouched: at the concrete failing input the deactivated device's
entity id is still published after the round trip. -/
theorem activate_deactivate_round_trip_bug (w : World)
    (selfId selfEntity : String)
    (huniq : ∀ d ∈ w.devices, d.entityId = selfEntity → d.deviceId = selfId)
    (f1 f2 : Bool) (volOutcome : HttpOutcome) (g1 : Bool) :
    (∀ g2 : Bool, ∀ d ∈ (async_turn_off
        (async_turn_on w selfId f1 .ok volOutcome g1)
        selfId f2 .ok g2).devices, d.deviceId = selfId → d.active = false) ∧
    selfEntity ∉ (async_turn_off (async_turn_on w selfId f1 .ok volOutcome g1)
        selfId f2 .ok true).groupMembers ∧
    (async_turn_off (async_turn_on w selfId f1 .ok volOutcome g1)
        selfId f2 .ok false).groupMembers =
      (async_turn_on w selfId f1 .ok volOutcome g1).groupMembers ∧
    (async_turn_off (async_turn_on
        ⟨[⟨"dev1", "media_player.sat", true, 1⟩], ["dev1"],
          ["media_player.sat"]⟩ "dev1" true .ok .ok false)
        "dev1" true .ok false).groupMembers = ["media_player.sat"] := by
  refine ⟨?_, ?_, turn_off_groupMembers_not_found _ _ _, rfl⟩
  · intro g2 d hd hid
    rw [turn_off_devices] at hd
    obtain ⟨d1, h1, hid1, hent1, hact1⟩ := mem_setDeviceActive _ _ _ _ hd
    rw [hact1, if_pos (hid1.symm.trans hid)]
  · intro hmem
    rw [turn_off_groupMembers_found] at hmem
    rw [List.mem_map] at hmem
    obtain ⟨d, hd, hent⟩ := hmem
    rw [List.mem_filter] at hd
    obtain ⟨hdmem, hcond⟩ := hd
    have hactive : d.active = true := (Bool.and_eq_true _ _ |>.mp hcond).1
    obtain ⟨d1, h1, hid1, hent1, hact1⟩ := mem_setDeviceActive _ _ _ _ hdmem
    obtain ⟨d0, h0, hid0, hent0, hact0⟩ := mem_turn_on_devices _ _ _ _ _ _ h1
    have hent00 : d0.entityId = selfEntity := by
      rw [← hent0, ← hent1, hent]
    have hdid : d0.deviceId = selfId := huniq d0 h0 hent00
    have : d1.deviceId = selfId := hid0.trans hdid
    rw [hact1, if_pos this] at hactive
    exact Bool.false_ne_true hactive

/-- Witness for the C8 theorem at the failing input: with the lookup
resolving the entity would be removed from the published list; with the
repository's actual (unpopulated per-entry) layout it stays published. -/
theorem activate_deactivate_round_trip_bug_witness :
    "media_player.sat" ∉ (async_turn_off (async_turn_on
        ⟨[⟨"dev1", "media_player.sat", true, 1⟩], ["dev1"],
          ["media_player.sat"]⟩ "dev1" true .ok .ok false)
        "dev1" true .ok true).groupMembers ∧
    (async_turn_off (async_turn_on
        ⟨[⟨"dev1", "media_player.sat", true, 1⟩], ["dev1"],
          ["media_player.sat"]⟩ "dev1" true .ok .ok false)
        "dev1" true .ok false).groupMembers = ["media_player.sat"] :=
  ⟨(activate_deactivate_round_trip_bug
      ⟨[⟨"dev1", "media_player.sat", true, 1⟩], ["dev1"],
        ["media_player.sat"]⟩
      "dev1" "media_player.sat" (by decide) true true .ok false).2.1,
   (activate_deactivate_round_trip_bug
      ⟨[⟨"dev1", "media_player.sat", true, 1⟩], ["dev1"],
        ["media_player.sat"]⟩
      "dev1" "media_player.sat" (by decide) true true .ok false).2.2.2⟩

/-- C9 counterexample: a non-success HTTP status on the unjoin
`set_active` request — a transport failure in the spec's taxonomy — is
logged and swallowed, not propagated: the satellite unjoin returns
normally with the state unchanged. -/
theorem unjoin_bad_status_not_propagated :
    satellite_unjoin
        ⟨[⟨"dev1", "media_player.sat", true, 1⟩], ["dev1"],
          ["media_player.sat"]⟩ "dev1" true .badStatus false =
      .ok ⟨[⟨"dev1", "media_player.sat", true, 1⟩], ["dev1"],
        ["media_player.sat"]⟩ := rfl

/-- C9 (amended): the unjoin operations (satellite and main player)
re-raise exceptions from the `set_active` post after logging, so the hub
lifecycle sees connection-level transport failures, but they swallow
non-success HTTP statuses (logged, state unchanged); the satellite
activation, deactivation and volume operations and the coordinator's
join catch their exceptions and leave prior state untouched. -/
theorem unjoin_error_propagation (w : World) (selfId : String)
    (fetchOk : Bool) (st : SatState) (v : ℚ)
    (group_members : List String) (mainPlayerFound : Bool) :
    satellite_unjoin w selfId fetchOk .exn mainPlayerFound = .error () ∧
    main_unjoin w .exn = .error () ∧
    satellite_unjoin w selfId fetchOk .badStatus mainPlayerFound = .ok w ∧
    main_unjoin w .badStatus = .ok w ∧
    async_turn_on w selfId fetchOk .exn .ok mainPlayerFound = w ∧
    async_turn_off w selfId fetchOk .exn mainPlayerFound = w ∧
    async_turn_on w selfId fetchOk .badStatus .ok mainPlayerFound = w ∧
    async_turn_off w selfId fetchOk .badStatus mainPlayerFound = w ∧
    (async_set_volume_level st v .exn).1 = st ∧
    (controller_join_players w group_members .exn).1 = w := by
  refine ⟨rfl, rfl, rfl, rfl, rfl, rfl, rfl, rfl, rfl, ?_⟩
  simp [controller_join_players, resolveIds_spec]

/-! ## Browse bucketing lemmas -/

lemma bucketKey_cases (n : String) :
    (bucketKey n).isAlpha = true ∨ bucketKey n = '#' := by
  unfold bucketKey
  by_cases h : (match n.data with
    | [] => ' '
    | ch :: _ => ch.toUpper).isAlpha
  · left; rw [if_pos h]; exact h
  · right; rw [if_neg h]

lemma lookupGroup_addToGroup (gs : List (Char × List String)) (c : Char)
    (n : String) (x : Char) :
    lookupGroup (addToGroup gs c n) x =
      if x = c then lookupGroup gs x ++ [n] else lookupGroup gs x := by
  induction gs with
  | nil =>
    by_cases hx : x = c
    · subst hx; simp [addToGroup, lookupGroup]
    · simp only [addToGroup, lookupGroup]
      rw [if_neg (fun h : c = x => hx h.symm), if_neg hx]
  | cons p rest ih =>
    obtain ⟨k, ns⟩ := p
    simp only [addToGroup]
    by_cases hk : k = c
    · rw [if_pos hk]
      subst hk
      simp only [lookupGroup]
      by_cases hx : k = x
      · subst hx
        simp [lookupGroup]
      · rw [if_neg hx, if_neg (fun h => hx h.symm)]
        simp [lookupGroup, hx]
    · rw [if_neg hk]
      simp only [lookupGroup]
      by_cases hx : k = x
      · subst hx
        rw [if_pos rfl, if_neg hk, if_pos rfl]
      · rw [if_neg hx, ih, if_neg hx]

lemma keys_addToGroup (gs : List (Char × List String)) (c : Char) (n : String) :
    (addToGroup gs c n).map Prod.fst =
      if c ∈ gs.map Prod.fst then gs.map Prod.fst
      else gs.map Prod.fst ++ [c] := by
  induction gs with
  | nil => simp [addToGroup]
  | cons p rest ih =>
    obtain ⟨k, ns⟩ := p
    simp only [addToGroup]
    by_cases hk : k = c
    · rw [if_pos hk]
      subst hk
      simp
    · rw [if_neg hk]
      simp only [List.map_cons, ih]
      by_cases hc : c ∈ rest.map Prod.fst
      · simp [hc, List.mem_cons]
      · simp only [hc, List.mem_cons, if_false, or_false]
        rw [if_neg (fun h : c = k => hk h.symm)]
        simp

lemma mem_keys_addToGroup (gs : List (Char × List String)) (c : Char)
    (n : String) (x : Char) :
    x ∈ (addToGroup gs c n).map Prod.fst ↔
      x ∈ gs.map Prod.fst ∨ x = c := by
  rw [keys_addToGroup]
  by_cases hc : c ∈ gs.map Prod.fst
  · rw [if_pos hc]
    constructor
    · exact Or.inl
    · rintro (h | rfl)
      · exact h
      · exact hc
  · rw [if_neg hc]
    simp

lemma nodup_keys_addToGroup (gs : List (Char × List String)) (c : Char)
    (n : String) (h : (gs.map Prod.fst).Nodup) :
    ((addToGroup gs c n).map Prod.fst).Nodup := by
  rw [keys_addToGroup]
  by_cases hc : c ∈ gs.map Prod.fst
  · rwa [if_pos hc]
  · rw [if_neg hc]
    exact List.Nodup.append h (List.nodup_singleton c)
      (fun x hx hx2 => hc ((List.mem_singleton.mp hx2) ▸ hx))

lemma trimmedNames_cons (item : String) (rest : List String) :
    trimmedNames (item :: rest) =
      if trimStr item = "" then trimmedNames rest
      else trimStr item :: trimmedNames rest := by
  unfold trimmedNames
  simp only [List.map_cons, List.filter_cons]
  by_cases h : trimStr item = "" <;> simp [h]

lemma bucketItems_cons (item : String) (rest : List String) (x : Char) :
    bucketItems (item :: rest) x =
      if trimStr item = "" then bucketItems rest x
      else if bucketKey (trimStr item) = x
        then trimStr item :: bucketItems rest x
        else bucketItems rest x := by
  unfold bucketItems
  rw [trimmedNames_cons]
  by_cases h : trimStr item = ""
  · simp [h]
  · rw [if_neg h, if_neg h, List.filter_cons]
    by_cases hb : bucketKey (trimStr item) = x <;> simp [hb]

lemma lookupGroup_letterGroups_fold (x : Char) :
    ∀ (items : List String) (gs : List (Char × List String)),
      lookupGroup (items.foldl (fun gs item =>
          let name := trimStr item
          if name = "" then gs
          else addToGroup gs (bucketKey name) name) gs) x =
      lookupGroup gs x ++ bucketItems items x := by
  intro items
  induction items with
  | nil => intro gs; simp [bucketItems, trimmedNames]
  | cons item rest ih =>
    intro gs
    simp only [List.foldl_cons]
    by_cases h : trimStr item = ""
    · rw [if_pos h, ih, bucketItems_cons, if_pos h]
    · rw [if_neg h, ih, lookupGroup_addToGroup, bucketItems_cons, if_neg h]
      by_cases hb : bucketKey (trimStr item) = x
      · rw [if_pos hb.symm, if_pos hb]
        simp
      · rw [if_neg (fun hh : x = bucketKey (trimStr item) => hb hh.symm),
          if_neg hb]

lemma lookupGroup_letterGroups (items : List String) (x : Char) :
    lookupGroup (letterGroups items) x = bucketItems items x := by
  unfold letterGroups
  rw [lookupGroup_letterGroups_fold]
  simp [lookupGroup]

lemma mem_keys_fold (x : Char) :
    ∀ (items : List String) (gs : List (Char × List String)),
      (x ∈ (items.foldl (fun gs item =>
          let name := trimStr item
          if name = "" then gs
          else addToGroup gs (bucketKey name) name) gs).map Prod.fst ↔
        x ∈ gs.map Prod.fst ∨ bucketItems items x ≠ []) := by
  intro items
  induction items with
  | nil => intro gs; simp [bucketItems, trimmedNames]
  | cons item rest ih =>
    intro gs
    simp only [List.foldl_cons]
    by_cases h : trimStr item = ""
    · rw [if_pos h, ih, bucketItems_cons, if_pos h]
    · rw [if_neg h, ih, bucketItems_cons, if_neg h]
      rw [mem_keys_addToGroup]
      by_cases hb : bucketKey (trimStr item) = x
      · rw [if_pos hb]
        constructor
        · intro hmem
          rcases hmem with (hgs | rfl) | hne
          · exact Or.inl hgs
          · exact Or.inr (List.cons_ne_nil _ _)
          · exact Or.inr (List.cons_ne_nil _ _)
        · rintro (hgs | hne)
          · exact Or.inl (Or.inl hgs)
          · exact Or.inl (Or.inr hb.symm)
      · rw [if_neg hb]
        constructor
        · intro hmem
          rcases hmem with (hgs | rfl) | hne
          · exact Or.inl hgs
          · exact absurd rfl hb
          · exact Or.inr hne
        · rintro (hgs | hne)
          · exact Or.inl (Or.inl hgs)
          · exact Or.inr hne

lemma mem_keys_letterGroups (items : List String) (x : Char) :
    x ∈ (letterGroups items).map Prod.fst ↔ bucketItems items x ≠ [] := by
  unfold letterGroups
  rw [mem_keys_fold]
  simp

lemma nodup_keys_fold :
    ∀ (items : List String) (gs : List (Char × List String)),
      (gs.map Prod.fst).Nodup →
      ((items.foldl (fun gs item =>
          let name := trimStr item
          if name = "" then gs
          else addToGroup gs (bucketKey name) name) gs).map Prod.fst).Nodup := by
  intro items
  induction items with
  | nil => intro gs h; exact h
  | cons item rest ih =>
    intro gs h
    simp only [List.foldl_cons]
    by_cases hi : trimStr item = ""
    · rw [if_pos hi]; exact ih gs h
    · rw [if_neg hi]; exact ih _ (nodup_keys_addToGroup gs _ _ h)

lemma nodup_keys_letterGroups (items : List String) :
    ((letterGroups items).map Prod.fst).Nodup := by
  unfold letterGroups
  exact nodup_keys_fold items [] (by simp)

lemma mem_bucketLetters (items : List String) (x : Char) :
    x ∈ bucketLetters items ↔ bucketItems items x ≠ [] := by
  unfold bucketLetters
  rw [List.mem_append, (List.perm_insertionSort _ _).mem_iff, List.mem_filter]
  constructor
  · rintro (⟨hk, _⟩ | hsh)
    · exact (mem_keys_letterGroups items x).mp hk
    · by_cases hc : '#' ∈ (letterGroups items).map Prod.fst
      · rw [if_pos hc] at hsh
        have hx : x = '#' := List.mem_singleton.mp hsh
        subst hx
        exact (mem_keys_letterGroups items _).mp hc
      · rw [if_neg hc] at hsh
        exact absurd hsh (List.not_mem_nil x)
  · intro hne
    have hk := (mem_keys_letterGroups items x).mpr hne
    obtain ⟨m, hm⟩ := List.exists_mem_of_ne_nil _ hne
    have hmf := List.mem_filter.mp hm
    have hbk : bucketKey m = x := of_decide_eq_true hmf.2
    rcases hbk ▸ bucketKey_cases m with ha | hsharp
    · exact Or.inl ⟨hk, ha⟩
    · right
      rw [← hsharp] at *
      rw [if_pos hk]
      exact List.mem_singleton.mpr rfl

lemma pairwise_letterOrder_bucketLetters (items : List String) :
    List.Pairwise letterOrder (bucketLetters items) := by
  unfold bucketLetters
  rw [List.pairwise_append]
  refine ⟨?_, ?_, ?_⟩
  · have hsorted := List.sorted_insertionSort (fun a b : Char => a ≤ b)
      (((letterGroups items).map Prod.fst).filter (fun c => c.isAlpha))
    have hnodup : (List.insertionSort (fun a b : Char => a ≤ b)
        (((letterGroups items).map Prod.fst).filter (fun c => c.isAlpha))).Nodup :=
      ((List.perm_insertionSort _ _).nodup_iff).mpr
        ((nodup_keys_letterGroups items).filter _)
    have halpha : ∀ c ∈ List.insertionSort (fun a b : Char => a ≤ b)
        (((letterGroups items).map Prod.fst).filter (fun c => c.isAlpha)),
        c.isAlpha = true := by
      intro c hc
      exact (List.mem_filter.mp ((List.perm_insertionSort _ _).mem_iff.mp hc)).2
    refine (hsorted.and hnodup).imp_of_mem ?_
    intro a b ha hb hr
    exact Or.inl ⟨halpha a ha, halpha b hb, lt_of_le_of_ne hr.1 hr.2⟩
  · by_cases hc : '#' ∈ (letterGroups items).map Prod.fst
    · rw [if_pos hc]; exact List.pairwise_singleton _ _
    · rw [if_neg hc]; exact List.Pairwise.nil
  · intro a ha b hb
    have halpha : a.isAlpha = true :=
      (List.mem_filter.mp ((List.perm_insertionSort _ _).mem_iff.mp ha)).2
    have hb' : b = '#' := by
      by_cases hc : '#' ∈ (letterGroups items).map Prod.fst
      · rw [if_pos hc] at hb; exact List.mem_singleton.mp hb
      · rw [if_neg hc] at hb; exact absurd hb (List.not_mem_nil b)
    exact Or.inr ⟨halpha, hb'⟩

/-- C7: browsing the albums/artists category buckets the trimmed,
non-empty names by uppercased first character (non-letters to `#`),
emits one directory node per non-empty bucket whose title carries the
bucket's item count, ordered alphabetically with `#` last; on the artist
listing `["Air", "Bach", "3 Doors Down"]` the children are exactly
`A (1)`, `B (1)`, `# (1)` in that order. -/
theorem browse_letter_buckets (items : List String) (category : String) :
    letterChildren items category =
      (bucketLetters items).map (fun c =>
        { title := bucketTitle c (bucketItems items c).length
          contentId := category ++ ":" ++ String.singleton c
          canPlay := false
          canExpand := true }) ∧
    (∀ c, c ∈ bucketLetters items ↔ bucketItems items c ≠ []) ∧
    List.Pairwise letterOrder (bucketLetters items) ∧
    letterChildren ["Air", "Bach", "3 Doors Down"] "artists" =
      [⟨"A (1)", "artists:A", false, true⟩,
       ⟨"B (1)", "artists:B", false, true⟩,
       ⟨"# (1)", "artists:#", false, true⟩] := by
  refine ⟨?_, fun c => mem_bucketLetters items c,
    pairwise_letterOrder_bucketLetters items, ?_⟩
  · unfold letterChildren
    apply List.map_congr_left
    intro c _
    rw [lookupGroup_letterGroups]
  · decide
